import Mathlib

/-!
Verification of the crosshot screenshot orchestrator (index.js).

The JavaScript source is shallowly embedded: the external world (process
execution via `exec`, the filesystem via `existsSync`/`statSync`/`readFileSync`)
is an oracle `Env` mapping each candidate index to the outcome of running that
candidate (whether `exec` reported an error, and the filesystem state observed
right after that candidate completed).  The executor `tryCommands` additionally
returns the list of candidate indices whose external process was actually
invoked, so that "zero external processes are invoked" is a statement about
that trace.  Timestamps (`Date.now()`, `toISOString()`) are modelled by a
single clock value `now : Nat` per invocation; the host OS identity
(`os.platform()`) is a `String` parameter.  Path operations (`path.join`,
`path.dirname`) are modelled at the string level, and `toLowerCase` by the ASCII
`String.toLower` of Lean (all format names involved are ASCII).
-/

namespace Crosshot

/-- Model of the JS toLowerCase (character-wise ASCII case folding). -/
def lowerCase (s : String) : String := String.mk (s.data.map Char.toLower)

/-- Model of the JS Array join with a separator. -/
def joinWith (sep : String) : List String → String
  | [] => ""
  | [x] => x
  | x :: y :: xs => x ++ sep ++ joinWith sep (y :: xs)

/-- Worker for `splitOnChar`, accumulating the current field reversed. -/
def splitOnCharGo (sep : Char) : List Char → List Char → List String
  | [], acc => [String.mk acc.reverse]
  | c :: cs, acc =>
    if c == sep then String.mk acc.reverse :: splitOnCharGo sep cs []
    else splitOnCharGo sep cs (c :: acc)

/-- Model of the JS String split on a one-character separator. -/
def splitOnChar (sep : Char) (s : String) : List String :=
  splitOnCharGo sep s.data []

/-- Whether `suff` is a suffix of `s` (model of an end-anchored regex test). -/
def strEndsWith (s suff : String) : Bool :=
  suff.data == s.data.drop (s.data.length - suff.data.length)

/-- Remove the last `n` characters of `s`. -/
def dropRightStr (s : String) (n : Nat) : String :=
  String.mk (s.data.take (s.data.length - n))

/-- Model of `path.join(dir, name)` for a simple two-component join. -/
def pathJoin (dir name : String) : String := dir ++ "/" ++ name

/-- Model of `path.dirname`: everything before the final slash. -/
def dirnameOf (p : String) : String :=
  match (splitOnChar (Char.ofNat 47) p).dropLast with
  | [] => "."
  | parts => joinWith "/" parts

/-- Model of taking element 0 of the command split on spaces: the tool name. -/
def toolNameOf (cmd : String) : String :=
  (splitOnChar (Char.ofNat 32) cmd).headD ""

/-- Model of replacing every backslash of filepath by a forward slash. -/
def slashify (s : String) : String :=
  String.mk (s.data.map fun c => if c == Char.ofNat 92 then Char.ofNat 47 else c)

/-- A single-quote character as a string, used inside embedded command text. -/
def sq : String := String.mk [Char.ofNat 39]

/-- Model of the end-anchored regex replacement of a dot-extension by png:
swap a final `.ext` for `.png`, leaving the path unchanged when the
anchor does not match. -/
def swapExtToPng (filepath ext : String) : String :=
  if strEndsWith filepath ("." ++ ext) then
    dropRightStr filepath ("." ++ ext).length ++ ".png"
  else
    filepath

/-- The validFormats array: png, jpg, jpeg, bmp, webp. -/
def validFormats : List String := ["png", "jpg", "jpeg", "bmp", "webp"]

/-- The fileExtension computation: jpeg becomes jpg, anything else is kept. -/
def fileExtensionOf (normalizedFormat : String) : String :=
  if normalizedFormat == "jpeg" then "jpg" else normalizedFormat

/-- The Windows `formatMap` object (`webp` falls back to the Png encoder). -/
def winFormatMap (normalizedFormat : String) : Option String :=
  if normalizedFormat == "png" then some "Png"
  else if normalizedFormat == "jpg" then some "Jpeg"
  else if normalizedFormat == "jpeg" then some "Jpeg"
  else if normalizedFormat == "bmp" then some "Bmp"
  else if normalizedFormat == "webp" then some "Png"
  else none

/-- `getMimeType(format)`: static format-to-MIME table, default `image/png`. -/
def getMimeType (format : String) : String :=
  if format == "png" then "image/png"
  else if format == "jpg" then "image/jpeg"
  else if format == "jpeg" then "image/jpeg"
  else if format == "webp" then "image/webp"
  else if format == "bmp" then "image/bmp"
  else "image/png"

/-- `getSuggestions(currentPlatform)`: static remediation table. -/
def getSuggestions (currentPlatform : String) : List String :=
  if currentPlatform == "win32" then
    ["PowerShell (native to Windows)",
     "NirCmd from https://www.nirsoft.net/utils/nircmd.html",
     "npm install screenshot-desktop"]
  else if currentPlatform == "darwin" then
    ["screencapture (native to macOS)",
     "Check screen recording permissions in System Preferences"]
  else
    ["grim (recommended for Wayland)",
     "gnome-screenshot (for GNOME environments)",
     "spectacle (for KDE Plasma)",
     "wayshot (alternative for Wayland)",
     "flameshot (GUI with extra features)",
     "scrot (for X11 systems)",
     "maim (alternative for X11)"]

/-- The base64 alphabet used by the Buffer base64 conversion. -/
def base64Alphabet : String :=
  "ABCDEFGHIJKLMNOPQRSTUVWXYZabcdefghijklmnopqrstuvwxyz0123456789+/"

/-- The base64 digit for a 6-bit value. -/
def base64Digit (n : Nat) : Char := base64Alphabet.toList.getD n (Char.ofNat 65)

/-- Standard base64 encoding of a byte list, with `=` padding, modelling
the Buffer base64 conversion of the image bytes. -/
def base64Encode : List Nat → String
  | [] => ""
  | [a] =>
    String.mk [base64Digit (a % 256 / 4), base64Digit (a % 4 * 16)] ++ "=="
  | [a, b] =>
    String.mk [base64Digit (a % 256 / 4),
               base64Digit (a % 4 * 16 + b % 256 / 16),
               base64Digit (b % 16 * 4)] ++ "="
  | a :: b :: c :: rest =>
    String.mk [base64Digit (a % 256 / 4),
               base64Digit (a % 4 * 16 + b % 256 / 16),
               base64Digit (b % 16 * 4 + c % 256 / 64),
               base64Digit (c % 64)] ++ base64Encode rest

/-- `statSync` metadata: size in bytes plus the fields copied into the
`metadata` object of the result (times and permission bits as abstract numbers). -/
structure Stats where
  size : Nat
  birthtime : Nat
  mtime : Nat
  mode : Nat
deriving Repr, DecidableEq

/-- The observable world right after the `exec` callback of one candidate fires:
whether `exec` reported an error, and the filesystem as then seen by
`existsSync` / `statSync` / `readFileSync` (`readFile = none` models
`readFileSync` throwing). -/
structure StepWorld where
  execError : Bool
  fileExists : String → Bool
  stat : String → Stats
  readFile : String → Option (List Nat)

/-- The external-world oracle: the world produced by running candidate `i`. -/
abbrev Env := Nat → StepWorld

/-- The `config` object of `takeScreenshot` after defaults are spread. -/
structure Config where
  silent : Bool := false
  verbose : Bool := false
  format : String := "png"
  quality : Nat := 100
  returnBase64 : Bool := false
deriving Repr, DecidableEq

/-- The success object resolved by `takeScreenshot`.  Floating-point display
sizes (`kb`, `mb`) are derived from `bytes` and not modelled. -/
structure CaptureResult where
  filename : String
  filepath : String
  directory : String
  sizeBytes : Nat
  tool : String
  platform : String
  format : String
  timestamp : Nat
  metaCreated : Nat
  metaModified : Nat
  metaPermissions : Nat
  base64 : Option String := none
  base64Raw : Option String := none
deriving Repr, DecidableEq

/-- The structured rejection object (`success: false` objects in the source).
`availableTools` is present only on the all-candidates-exhausted error. -/
structure CaptureError where
  error : String
  platform : String
  availableTools : Option (List String)
  timestamp : Nat
  suggestions : List String
deriving Repr, DecidableEq

/-- Promise outcome: `resolve(result)` or `reject(error)`. -/
inductive Outcome where
  | success (r : CaptureResult)
  | failure (e : CaptureError)
deriving Repr, DecidableEq

/-- The closure context available to `tryCommand`: the values captured from
the enclosing `takeScreenshot` scope. -/
structure ShotCtx where
  filename : String
  filepath : String
  directory : String
  platform : String
  normalizedFormat : String
  returnBase64 : Bool
  timestamp : Nat
  commands : List String
deriving Inhabited

/-- Building the success `result` object (including the optional base64
augmentation, whose failure is swallowed). -/
def mkSuccess (ctx : ShotCtx) (w : StepWorld) (tool : String) : CaptureResult :=
  let stats := w.stat ctx.filepath
  let base : CaptureResult :=
    { filename := ctx.filename
      filepath := ctx.filepath
      directory := ctx.directory
      sizeBytes := stats.size
      tool := tool
      platform := ctx.platform
      format := ctx.normalizedFormat
      timestamp := ctx.timestamp
      metaCreated := stats.birthtime
      metaModified := stats.mtime
      metaPermissions := stats.mode }
  if ctx.returnBase64 then
    match w.readFile ctx.filepath with
    | some bytes =>
      let base64Data := base64Encode bytes
      let mimeType := getMimeType ctx.normalizedFormat
      { base with
          base64 := some ("data:" ++ mimeType ++ ";base64," ++ base64Data)
          base64Raw := some base64Data }
    | none => base
  else
    base

/-- The `tryCommand` cascade, embedded over the indexed suffix of the command
list still to try.  Besides the outcome it returns the indices of the
candidates whose external process was invoked, in order. -/
def tryCommands (env : Env) (ctx : ShotCtx) :
    List (Nat × String) → Outcome × List Nat
  | [] =>
    (.failure
      { error := "No screenshot tools found!"
        platform := ctx.platform
        availableTools := some (ctx.commands.map toolNameOf)
        timestamp := ctx.timestamp
        suggestions := getSuggestions ctx.platform }, [])
  | (i, cmd) :: rest =>
    let w := env i
    if w.execError then
      let r := tryCommands env ctx rest
      (r.1, i :: r.2)
    else if w.fileExists ctx.filepath then
      (.success (mkSuccess ctx w (toolNameOf cmd)), [i])
    else
      let r := tryCommands env ctx rest
      (r.1, i :: r.2)

/-- The Windows PowerShell capture command, parameterised by the encoder name
taken from `winFormatMap` and the (backslash-normalised) destination path. -/
def winPsCommand (psFormat filepath : String) : String :=
  "powershell -Command \"Add-Type -AssemblyName System.Windows.Forms; $screen = [System.Windows.Forms.Screen]::PrimaryScreen; $bitmap = New-Object System.Drawing.Bitmap($screen.Bounds.Width, $screen.Bounds.Height); $graphics = [System.Drawing.Graphics]::FromImage($bitmap); $graphics.CopyFromScreen($screen.Bounds.X, $screen.Bounds.Y, 0, 0, $screen.Bounds.Size); $bitmap.Save("
    ++ sq ++ slashify filepath ++ sq
    ++ ", [System.Drawing.Imaging.ImageFormat]::" ++ psFormat
    ++ "); $graphics.Dispose(); $bitmap.Dispose()\""

/-- The six Linux tools pushed unconditionally after the optional grim entry. -/
def linuxFixedTail (filepath : String) : List String :=
  ["gnome-screenshot -f \"" ++ filepath ++ "\"",
   "spectacle -b -n -o \"" ++ filepath ++ "\"",
   "wayshot -f \"" ++ filepath ++ "\"",
   "flameshot full -p \"" ++ dirnameOf filepath ++ "\" -d 0",
   "scrot \"" ++ filepath ++ "\"",
   "maim \"" ++ filepath ++ "\""]

/-- The platform-specific `commands` array construction of `takeScreenshot`. -/
def buildCommands (currentPlatform normalizedFormat fileExtension filepath :
    String) : List String :=
  if currentPlatform == "win32" then
    let psFormat := (winFormatMap normalizedFormat).getD "undefined"
    [winPsCommand psFormat filepath,
     "nircmd savescreenshot \"" ++ filepath ++ "\"",
     "screencapture \"" ++ filepath ++ "\""]
  else if currentPlatform == "darwin" then
    if (["png", "jpg", "jpeg"].contains normalizedFormat) then
      let formatFlag := if normalizedFormat == "png" then "" else " -t jpg"
      ["screencapture" ++ formatFlag ++ " \"" ++ filepath ++ "\"",
       "screencapture -x" ++ formatFlag ++ " \"" ++ filepath ++ "\""]
    else
      let fallbackPath := swapExtToPng filepath fileExtension
      ["screencapture \"" ++ fallbackPath ++ "\"",
       "screencapture -x \"" ++ fallbackPath ++ "\""]
  else
    (if (["png", "jpg", "jpeg", "webp"].contains normalizedFormat) then
      let grimFormat := if normalizedFormat == "jpeg" then "jpg"
                        else normalizedFormat
      ["grim -t " ++ grimFormat ++ " \"" ++ filepath ++ "\""]
    else []) ++ linuxFixedTail filepath

/-- The in-scope values of a validated `takeScreenshot` call: normalized
format, file extension, filename, filepath and the platform command table. -/
def shotCtxOf (destinationDir : String) (customName : Option String)
    (config : Config) (now : Nat) (currentPlatform : String) : ShotCtx :=
  let normalizedFormat := lowerCase config.format
  let fileExtension := fileExtensionOf normalizedFormat
  let filename :=
    match customName with
    | some n => n ++ "." ++ fileExtension
    | none => "screenshot-" ++ toString now ++ "." ++ fileExtension
  let filepath := pathJoin destinationDir filename
  { filename := filename
    filepath := filepath
    directory := destinationDir
    platform := currentPlatform
    normalizedFormat := normalizedFormat
    returnBase64 := config.returnBase64
    timestamp := now
    commands :=
      buildCommands currentPlatform normalizedFormat fileExtension filepath }

/-- `takeScreenshot(destinationDir, customName, options)`, with the world
oracle, the current clock value (`Date.now()` / ISO timestamps) and the host
platform made explicit.  Returns the promise outcome together with the list
of candidate indices whose external process was invoked. -/
def takeScreenshot (env : Env) (destinationDir : String)
    (customName : Option String) (config : Config) (now : Nat)
    (currentPlatform : String) : Outcome × List Nat :=
  let normalizedFormat := lowerCase config.format
  if (validFormats.contains normalizedFormat) then
    let ctx := shotCtxOf destinationDir customName config now currentPlatform
    tryCommands env ctx ctx.commands.enum
  else
    (.failure
      { error := "Unsupported format: " ++ config.format
          ++ ". Supported formats: " ++ joinWith ", " validFormats
        platform := currentPlatform
        availableTools := none
        timestamp := now
        suggestions :=
          ["Use one of these formats: " ++ joinWith ", " validFormats] },
     [])

/-- The destructured option object of `captureScreen` with its defaults
(`outputDir` defaults to `process.cwd()`, supplied separately). -/
structure CaptureScreenOptions where
  outputDir : Option String := none
  filename : Option String := none
  silent : Bool := true
  verbose : Bool := false
  createDir : Bool := true
  format : String := "png"
  quality : Nat := 100
  returnBase64 : Bool := false
deriving Repr

/-- Whether `captureScreen` reaches the `mkdirSync` call. -/
def captureScreenMkdirCalled (opts : CaptureScreenOptions)
    (dirExists : Bool) : Bool :=
  !dirExists && opts.createDir

/-- `captureScreen(options)`: directory guard, then delegate to
`takeScreenshot`.  `dirExists` models `existsSync(outputDir)`;
`mkdirSync` with `recursive: true` is modelled as succeeding. -/
def captureScreen (env : Env) (opts : CaptureScreenOptions) (cwd : String)
    (dirExists : Bool) (now : Nat) (currentPlatform : String) :
    Outcome × List Nat :=
  let outputDir := opts.outputDir.getD cwd
  let run := takeScreenshot env outputDir opts.filename
    { silent := opts.silent
      verbose := opts.verbose
      format := opts.format
      quality := opts.quality
      returnBase64 := opts.returnBase64 } now currentPlatform
  if dirExists then run
  else if opts.createDir then run
  else
    (.failure
      { error := "Directory does not exist: " ++ outputDir
        platform := currentPlatform
        availableTools := none
        timestamp := now
        suggestions :=
          ["Set createDir: true to automatically create directories",
           "Create the directory manually before taking screenshot"] }, [])

/-- The per-platform tool name lists probed by `getAvailableTools`. -/
def platformToolNames (currentPlatform : String) : List String :=
  if currentPlatform == "win32" then
    ["powershell", "nircmd", "screencapture"]
  else if currentPlatform == "darwin" then
    ["screencapture"]
  else
    ["grim", "gnome-screenshot", "spectacle", "wayshot", "flameshot",
     "scrot", "maim"]

/-- The object resolved by `getAvailableTools`. -/
structure ToolsReport where
  platform : String
  available : List String
  total : Nat
  hasTools : Bool
deriving Repr, DecidableEq

/-- `getAvailableTools()`: probe each tool with `which`; the probes run
concurrently and the promise resolves only after all have completed, so the
aggregate is order-insensitive for the fields below and is modelled as a
filter over the tool list.  `whichOk t` models `which t` exiting cleanly. -/
def getAvailableTools (whichOk : String → Bool)
    (currentPlatform : String) : ToolsReport :=
  let commands := platformToolNames currentPlatform
  let availableTools := commands.filter whichOk
  { platform := currentPlatform
    available := availableTools
    total := commands.length
    hasTools := decide (0 < availableTools.length) }

/-- The error object rejected when every candidate has been exhausted. -/
def noToolError (ctx : ShotCtx) : CaptureError :=
  { error := "No screenshot tools found!"
    platform := ctx.platform
    availableTools := some (ctx.commands.map toolNameOf)
    timestamp := ctx.timestamp
    suggestions := getSuggestions ctx.platform }

/-- A world oracle whose commands always succeed and always produce the
expected file, with readable content (used to instantiate theorems). -/
def wEnvOk : Env := fun _ =>
  { execError := false
    fileExists := fun _ => true
    stat := fun _ => ⟨10, 1, 2, 3⟩
    readFile := fun _ => some [] }

/-- A world oracle whose command at index 0 errors and whose later commands
succeed, with the file present but unreadable. -/
def wEnvErr0 : Env := fun i =>
  { execError := i == 0
    fileExists := fun _ => true
    stat := fun _ => ⟨10, 1, 2, 3⟩
    readFile := fun _ => none }

/-- A world oracle where commands succeed but the only file ever present on
disk is `/tmp/shot.png` (what `screencapture` writes in the macOS webp
fallback scenario). -/
def wEnvPngOnly : Env := fun _ =>
  { execError := false
    fileExists := fun p => p == "/tmp/shot.png"
    stat := fun _ => ⟨0, 0, 0, 0⟩
    readFile := fun _ => none }

/-- A concrete closure context with two commands, used to instantiate the
cascade theorems. -/
def wCtxTwo : ShotCtx :=
  { filename := "s.png"
    filepath := "/d/s.png"
    directory := "/d"
    platform := "linux"
    normalizedFormat := "png"
    returnBase64 := false
    timestamp := 0
    commands := ["grim -t png \"/d/s.png\"", "scrot \"/d/s.png\""] }

/-- A concrete closure context with base64 augmentation requested. -/
def wCtxB64 : ShotCtx :=
  { filename := "s.png"
    filepath := "/d/s.png"
    directory := "/d"
    platform := "linux"
    normalizedFormat := "png"
    returnBase64 := true
    timestamp := 0
    commands := ["grim -t png \"/d/s.png\""] }

lemma tryCommands_exhaust (env : Env) (ctx : ShotCtx) (cs : List String)
    (k : Nat)
    (h : ∀ j, j < cs.length → (env (k + j)).execError = true ∨
        (env (k + j)).fileExists ctx.filepath = false) :
    tryCommands env ctx (List.enumFrom k cs) =
      (.failure (noToolError ctx), List.range' k cs.length) := by
  induction cs generalizing k with
  | nil => rfl
  | cons c cs ih =>
    have h0 := h 0 (Nat.succ_pos _)
    rw [Nat.add_zero] at h0
    have hrest := ih (k + 1) (fun j hj => by
      have hh := h (j + 1) (Nat.succ_lt_succ hj)
      have he : k + (j + 1) = k + 1 + j := by omega
      rwa [he] at hh)
    by_cases hE : (env k).execError = true
    · simp [List.enumFrom, tryCommands, hE, hrest, List.length_cons,
        List.range'_succ]
    · have hX : (env k).fileExists ctx.filepath = false := by
        rcases h0 with h0 | h0
        · exact absurd h0 hE
        · exact h0
      simp [List.enumFrom, tryCommands, hE, hX, hrest, List.length_cons,
        List.range'_succ]

lemma tryCommands_first_success (env : Env) (ctx : ShotCtx)
    (cs : List String) (k i : Nat) (hi : i < cs.length)
    (hskip : ∀ j, j < i → (env (k + j)).execError = true ∨
        (env (k + j)).fileExists ctx.filepath = false)
    (hE : (env (k + i)).execError = false)
    (hX : (env (k + i)).fileExists ctx.filepath = true) :
    tryCommands env ctx (List.enumFrom k cs) =
      (.success (mkSuccess ctx (env (k + i)) (toolNameOf (cs.getD i ""))),
       List.range' k (i + 1)) := by
  induction cs generalizing k i with
  | nil => exact absurd hi (Nat.not_lt_zero _)
  | cons c cs ih =>
    cases i with
    | zero =>
      rw [Nat.add_zero] at hE hX
      simp [List.enumFrom, tryCommands, hE, hX, List.getD_cons_zero]
    | succ i =>
      have h0 := hskip 0 (Nat.succ_pos _)
      rw [Nat.add_zero] at h0
      have hshift : k + (i + 1) = k + 1 + i := by omega
      rw [hshift] at hE hX
      have hrest := ih (k + 1) i (Nat.lt_of_succ_lt_succ hi)
        (fun j hj => by
          have hh := hskip (j + 1) (Nat.succ_lt_succ hj)
          have he : k + (j + 1) = k + 1 + j := by omega
          rwa [he] at hh)
        hE hX
      by_cases hEk : (env k).execError = true
      · simp only [List.enumFrom, tryCommands, hEk, if_true]
        rw [hshift]
        simp [hrest, List.getD_cons_succ, List.range'_succ]
      · have hXk : (env k).fileExists ctx.filepath = false := by
          rcases h0 with h0 | h0
          · exact absurd h0 hEk
          · exact h0
        simp only [List.enumFrom, tryCommands, hEk, hXk]
        rw [hshift]
        simp [hrest, List.getD_cons_succ, List.range'_succ]

lemma tryCommands_head_success (env : Env) (ctx : ShotCtx) (i : Nat)
    (cmd : String) (rest : List (Nat × String))
    (h0 : (env i).execError = false)
    (hx : (env i).fileExists ctx.filepath = true) :
    tryCommands env ctx ((i, cmd) :: rest) =
      (.success (mkSuccess ctx (env i) (toolNameOf cmd)), [i]) := by
  simp [tryCommands, h0, hx]

lemma mkSuccess_format (ctx : ShotCtx) (w : StepWorld) (tool : String) :
    (mkSuccess ctx w tool).format = ctx.normalizedFormat := by
  unfold mkSuccess
  cases hrb : ctx.returnBase64 <;>
    cases hrf : w.readFile ctx.filepath <;> simp [hrb, hrf]


lemma takeScreenshot_valid (env : Env) (destinationDir : String)
    (customName : Option String) (config : Config) (now : Nat)
    (currentPlatform : String)
    (h : validFormats.contains (lowerCase config.format) = true) :
    takeScreenshot env destinationDir customName config now currentPlatform =
      tryCommands env
        (shotCtxOf destinationDir customName config now currentPlatform)
        (shotCtxOf destinationDir customName config now
          currentPlatform).commands.enum := by
  simp only [takeScreenshot, h, if_true]

/-- Claim C1: the Sequential Fallback Executor tries the candidates in
strict list order with first-success-wins.  A candidate whose process
reports an execution error, or which completes without error but whose
expected output file is absent from disk, is skipped; the first candidate
completing without error with the output file present yields the
CaptureResult, having invoked exactly candidates 0 through i and no later
one; if all candidates are exhausted, the executor rejects with a
CaptureError listing every attempted tool name and the platform-specific
suggestions. -/
theorem tryCommands_first_success_wins (env : Env) (ctx : ShotCtx) :
    (∀ i, i < ctx.commands.length →
      (∀ j, j < i → (env j).execError = true ∨
          (env j).fileExists ctx.filepath = false) →
      (env i).execError = false →
      (env i).fileExists ctx.filepath = true →
      tryCommands env ctx ctx.commands.enum =
        (.success (mkSuccess ctx (env i)
          (toolNameOf (ctx.commands.getD i ""))),
         List.range (i + 1)))
    ∧ ((∀ j, j < ctx.commands.length → (env j).execError = true ∨
          (env j).fileExists ctx.filepath = false) →
      tryCommands env ctx ctx.commands.enum =
        (.failure
          { error := "No screenshot tools found!"
            platform := ctx.platform
            availableTools := some (ctx.commands.map toolNameOf)
            timestamp := ctx.timestamp
            suggestions := getSuggestions ctx.platform },
         List.range ctx.commands.length)) := by
  constructor
  · intro i hi hskip hE hX
    have h := tryCommands_first_success env ctx ctx.commands 0 i hi
      (fun j hj => by simpa using hskip j hj)
      (by simpa using hE) (by simpa using hX)
    simpa [List.range_eq_range'] using h
  · intro hall
    have h := tryCommands_exhaust env ctx ctx.commands 0
      (fun j hj => by simpa using hall j hj)
    simpa [List.range_eq_range', noToolError] using h

/-- Witness for C1 at a concrete two-command context: the first candidate
errors, the second succeeds and wins. -/
theorem tryCommands_first_success_wins_witness :
    tryCommands wEnvErr0 wCtxTwo wCtxTwo.commands.enum =
      (.success (mkSuccess wCtxTwo (wEnvErr0 1) "scrot"), [0, 1]) := by
  have h := (tryCommands_first_success_wins wEnvErr0 wCtxTwo).1 1 (by decide)
    (fun j hj => by
      have hj0 : j = 0 := by omega
      subst hj0
      exact Or.inl rfl)
    rfl rfl
  exact h.trans (by decide)

/-- Claim C2: a request whose case-folded format is not among png, jpg,
jpeg, bmp, webp rejects with the UnsupportedFormat error carrying the list
of valid formats as a suggestion, and the invocation trace is empty: no
candidate command is ever attempted, whatever the external world. -/
theorem takeScreenshot_unsupported_format_rejects (env : Env)
    (destinationDir : String) (customName : Option String) (config : Config)
    (now : Nat) (currentPlatform : String)
    (h : validFormats.contains (lowerCase config.format) = false) :
    takeScreenshot env destinationDir customName config now currentPlatform =
      (.failure
        { error := "Unsupported format: " ++ config.format
            ++ ". Supported formats: " ++ joinWith ", " validFormats
          platform := currentPlatform
          availableTools := none
          timestamp := now
          suggestions := ["Use one of these formats: "
            ++ joinWith ", " validFormats] }, []) := by
  simp only [takeScreenshot, h, Bool.false_eq_true, if_false]

/-- Witness for C2 at the concrete format tiff. -/
theorem takeScreenshot_unsupported_format_rejects_witness :
    validFormats.contains (lowerCase "tiff") = false
    ∧ takeScreenshot wEnvOk "/d" none { format := "tiff" } 0 "linux" =
      (.failure
        { error :=
            "Unsupported format: tiff. Supported formats: png, jpg, jpeg, bmp, webp"
          platform := "linux"
          availableTools := none
          timestamp := 0
          suggestions :=
            ["Use one of these formats: png, jpg, jpeg, bmp, webp"] }, []) :=
  ⟨by decide,
   (takeScreenshot_unsupported_format_rejects wEnvOk "/d" none
     { format := "tiff" } 0 "linux" (by decide)).trans (by decide)⟩

/-- Claim C3 exhibit: on macOS with a webp request the destination path is
rewritten to png and both candidate commands do target the rewritten path,
but the success check of the executor still reads the original filepath, so
a run in which the capture is successfully written to the rewritten png path
is reported as an all-tools-exhausted failure after invoking both
candidates, contradicting the claim that success is checked against the
rewritten path. -/
theorem darwin_webp_fallback_check_misses_rewritten_path :
    buildCommands "darwin" "webp" "webp" "/tmp/shot.webp" =
      ["screencapture \"/tmp/shot.png\"", "screencapture -x \"/tmp/shot.png\""]
    ∧ (wEnvPngOnly 0).fileExists "/tmp/shot.png" = true
    ∧ takeScreenshot wEnvPngOnly "/tmp" (some "shot")
        { format := "webp" } 0 "darwin" =
      (.failure
        { error := "No screenshot tools found!"
          platform := "darwin"
          availableTools := some ["screencapture", "screencapture"]
          timestamp := 0
          suggestions := ["screencapture (native to macOS)",
            "Check screen recording permissions in System Preferences"] },
       [0, 1]) := by
  decide

/-- Claim C4 counterexample: the Linux command table appends six
unconditional tools after the optional grim entry, not five; with a format
grim rejects (bmp) the list has six entries, and with png it has seven. -/
theorem linux_fixed_tail_not_five :
    (buildCommands "linux" "bmp" "bmp" "/tmp/s.bmp").length = 6
    ∧ ((buildCommands "linux" "bmp" "bmp" "/tmp/s.bmp").length = 5 → False)
    ∧ (buildCommands "linux" "png" "png" "/tmp/s.png").length = 7 := by
  decide


/-- Claim C4 as amended: on non-Windows, non-macOS platforms the command
table starts with the grim entry exactly when the format is png, jpg, jpeg
or webp, and then unconditionally appends the same fixed six-tool tail
regardless of the requested format. -/
theorem linux_commands_grim_conditional_six_tail (plat nf ext fp : String)
    (h1 : (plat == "win32") = false) (h2 : (plat == "darwin") = false) :
    ((["png", "jpg", "jpeg", "webp"].contains nf) = true →
      buildCommands plat nf ext fp =
        ("grim -t " ++ (if nf == "jpeg" then "jpg" else nf)
          ++ " \"" ++ fp ++ "\"") :: linuxFixedTail fp)
    ∧ ((["png", "jpg", "jpeg", "webp"].contains nf) = false →
      buildCommands plat nf ext fp = linuxFixedTail fp)
    ∧ (linuxFixedTail fp).length = 6 := by
  refine ⟨?_, ?_, rfl⟩ <;> intro hc <;>
    simp only [buildCommands, h1, h2, hc, Bool.false_eq_true, if_false,
      if_true, List.singleton_append, List.nil_append]

/-- Witness for the amended C4 on the concrete linux platform with png. -/
theorem linux_commands_grim_conditional_six_tail_witness :
    buildCommands "linux" "png" "png" "/d/s.png" =
      "grim -t png \"/d/s.png\"" :: linuxFixedTail "/d/s.png" :=
  ((linux_commands_grim_conditional_six_tail "linux" "png" "png" "/d/s.png"
    (by decide) (by decide)).1 (by decide)).trans (by decide)

set_option maxRecDepth 4000 in
/-- Claim C5: on Windows a webp request is encoded through the Png image
encoder of the PowerShell command (the first candidate), yet on success the
format field of the returned CaptureResult still reports the requested
normalized format webp, not the actually encoded png: the soft-fallback is
not surfaced to the caller. -/
theorem win32_webp_png_encoder_reports_webp (env : Env)
    (destinationDir : String) (customName : Option String) (now : Nat)
    (sil vb rb : Bool) (q : Nat)
    (h0 : (env 0).execError = false)
    (hex : ∀ p, (env 0).fileExists p = true) :
    (winFormatMap "webp").getD "undefined" = "Png"
    ∧ (∀ fp ext, buildCommands "win32" "webp" ext fp =
        [winPsCommand "Png" fp,
         "nircmd savescreenshot \"" ++ fp ++ "\"",
         "screencapture \"" ++ fp ++ "\""])
    ∧ ∃ r, (takeScreenshot env destinationDir customName
          ⟨sil, vb, "webp", q, rb⟩ now "win32").1 = .success r
        ∧ r.format = "webp" := by
  refine ⟨rfl, fun fp ext => rfl, ?_⟩
  set ctx := shotCtxOf destinationDir customName
    ⟨sil, vb, "webp", q, rb⟩ now "win32" with hctx
  have hcmds : ctx.commands =
      [winPsCommand "Png" ctx.filepath,
       "nircmd savescreenshot \"" ++ ctx.filepath ++ "\"",
       "screencapture \"" ++ ctx.filepath ++ "\""] := rfl
  have hrun := tryCommands_first_success env ctx
    [winPsCommand "Png" ctx.filepath,
     "nircmd savescreenshot \"" ++ ctx.filepath ++ "\"",
     "screencapture \"" ++ ctx.filepath ++ "\""] 0 0
    (by simp)
    (fun j hj => absurd hj (Nat.not_lt_zero j))
    (by simpa using h0) (by simpa using hex ctx.filepath)
  refine ⟨mkSuccess ctx (env 0)
    (toolNameOf (winPsCommand "Png" ctx.filepath)), ?_, ?_⟩
  · rw [takeScreenshot_valid env destinationDir customName
      ⟨sil, vb, "webp", q, rb⟩ now "win32" (by rfl)]
    rw [← hctx, hcmds]
    rw [show List.enum
        [winPsCommand "Png" ctx.filepath,
         "nircmd savescreenshot \"" ++ ctx.filepath ++ "\"",
         "screencapture \"" ++ ctx.filepath ++ "\""] =
      List.enumFrom 0
        [winPsCommand "Png" ctx.filepath,
         "nircmd savescreenshot \"" ++ ctx.filepath ++ "\"",
         "screencapture \"" ++ ctx.filepath ++ "\""] from rfl]
    rw [hrun]
    simp
  · rw [mkSuccess_format]
    rfl

/-- Witness for C5 with a concrete always-succeeding world. -/
theorem win32_webp_png_encoder_reports_webp_witness :
    ∃ r, (takeScreenshot wEnvOk "/d" (some "shot")
        ⟨false, false, "webp", 100, false⟩ 0 "win32").1 = .success r
      ∧ r.format = "webp" :=
  (win32_webp_png_encoder_reports_webp wEnvOk "/d" (some "shot") 0
    false false false 100 rfl (fun _ => rfl)).2.2

/-- Claim C6: with the destination directory missing and createDir
explicitly false, captureScreen rejects with the DirectoryUnavailable error
carrying platform, timestamp and suggestions, with an empty invocation
trace (zero external processes); with createDir true (its default value)
the mkdirSync call is reached and the capture proceeds as the corresponding
takeScreenshot call. -/
theorem captureScreen_missing_dir_policy (env : Env)
    (opts : CaptureScreenOptions) (cwd : String) (now : Nat)
    (currentPlatform : String) :
    (opts.createDir = false →
      captureScreen env opts cwd false now currentPlatform =
        (.failure
          { error := "Directory does not exist: " ++ opts.outputDir.getD cwd
            platform := currentPlatform
            availableTools := none
            timestamp := now
            suggestions :=
              ["Set createDir: true to automatically create directories",
               "Create the directory manually before taking screenshot"] },
         []))
    ∧ (opts.createDir = true →
      captureScreenMkdirCalled opts false = true
      ∧ captureScreen env opts cwd false now currentPlatform =
        takeScreenshot env (opts.outputDir.getD cwd) opts.filename
          { silent := opts.silent
            verbose := opts.verbose
            format := opts.format
            quality := opts.quality
            returnBase64 := opts.returnBase64 } now currentPlatform) := by
  constructor
  · intro h
    simp [captureScreen, h]
  · intro h
    refine ⟨by simp [captureScreenMkdirCalled, h], ?_⟩
    simp [captureScreen, h]

/-- Witness for C6 with default options except createDir false. -/
theorem captureScreen_missing_dir_policy_witness :
    captureScreen wEnvOk { createDir := false } "/cwd" false 0 "linux" =
      (.failure
        { error := "Directory does not exist: /cwd"
          platform := "linux"
          availableTools := none
          timestamp := 0
          suggestions :=
            ["Set createDir: true to automatically create directories",
             "Create the directory manually before taking screenshot"] },
       []) :=
  ((captureScreen_missing_dir_policy wEnvOk { createDir := false }
    "/cwd" 0 "linux").1 rfl).trans (by decide)

/-- Claim C7: when base64 augmentation is requested and reading the
written file back fails, the capture still resolves successfully with the
already-constructed CaptureResult, whose base64 and data-URL fields are
simply omitted. -/
theorem base64_failure_nonfatal (env : Env) (ctx : ShotCtx) (i : Nat)
    (cmd : String) (rest : List (Nat × String))
    (hrb : ctx.returnBase64 = true)
    (h0 : (env i).execError = false)
    (hx : (env i).fileExists ctx.filepath = true)
    (hrf : (env i).readFile ctx.filepath = none) :
    tryCommands env ctx ((i, cmd) :: rest) =
      (.success (mkSuccess ctx (env i) (toolNameOf cmd)), [i])
    ∧ (mkSuccess ctx (env i) (toolNameOf cmd)).base64 = none
    ∧ (mkSuccess ctx (env i) (toolNameOf cmd)).base64Raw = none := by
  refine ⟨tryCommands_head_success env ctx i cmd rest h0 hx, ?_, ?_⟩ <;>
    simp [mkSuccess, hrb, hrf]

/-- Witness for C7 at a concrete context requesting base64 whose file is
unreadable. -/
theorem base64_failure_nonfatal_witness :
    tryCommands wEnvErr0 wCtxB64 [(1, "grim -t png \"/d/s.png\"")] =
      (.success (mkSuccess wCtxB64 (wEnvErr0 1)
        (toolNameOf "grim -t png \"/d/s.png\"")), [1])
    ∧ (mkSuccess wCtxB64 (wEnvErr0 1)
        (toolNameOf "grim -t png \"/d/s.png\"")).base64 = none
    ∧ (mkSuccess wCtxB64 (wEnvErr0 1)
        (toolNameOf "grim -t png \"/d/s.png\"")).base64Raw = none :=
  base64_failure_nonfatal wEnvErr0 wCtxB64 1 "grim -t png \"/d/s.png\"" []
    rfl rfl rfl rfl

/-- Claim C8: the getAvailableTools report has hasTools true exactly when
the available list is non-empty, and total always equals the length of the
fixed platform tool list: 3 on Windows, 1 on macOS, 7 on Linux and other
platforms. -/
theorem getAvailableTools_hasTools_total (whichOk : String → Bool)
    (plat : String) :
    ((getAvailableTools whichOk plat).hasTools = true ↔
      (getAvailableTools whichOk plat).available ≠ [])
    ∧ (getAvailableTools whichOk plat).total = (platformToolNames plat).length
    ∧ (plat = "win32" → (getAvailableTools whichOk plat).total = 3)
    ∧ (plat = "darwin" → (getAvailableTools whichOk plat).total = 1)
    ∧ (plat ≠ "win32" → plat ≠ "darwin" →
        (getAvailableTools whichOk plat).total = 7) := by
  refine ⟨?_, rfl, ?_, ?_, ?_⟩
  · simp [getAvailableTools, List.length_pos]
  · intro h
    subst h
    simp [getAvailableTools, platformToolNames]
  · intro h
    subst h
    simp [getAvailableTools, platformToolNames]
  · intro h1 h2
    simp [getAvailableTools, platformToolNames, h1, h2]

/-- Witness for C8 on the concrete linux platform with no tool found. -/
theorem getAvailableTools_hasTools_total_witness :
    (getAvailableTools (fun _ => false) "linux").total = 7 :=
  (getAvailableTools_hasTools_total (fun _ => false) "linux").2.2.2.2
    (by decide) (by decide)

set_option maxRecDepth 4000 in
/-- Claim C9: format strings are case-folded before use: a JPG request
normalizes to jpg for the output file extension and yields MIME type
image/jpeg, and jpeg is a synonym of jpg for the file extension while being
kept as a distinct label for the MIME lookup, also giving image/jpeg. -/
theorem format_case_folding_jpg_jpeg :
    lowerCase "JPG" = "jpg"
    ∧ fileExtensionOf "jpg" = "jpg"
    ∧ getMimeType "jpg" = "image/jpeg"
    ∧ fileExtensionOf "jpeg" = "jpg"
    ∧ getMimeType "jpeg" = "image/jpeg"
    ∧ (takeScreenshot wEnvOk "/d" (some "shot")
        { format := "JPG", returnBase64 := true } 0 "linux").1 =
      .success
        { filename := "shot.jpg", filepath := "/d/shot.jpg", directory := "/d"
          sizeBytes := 10, tool := "grim", platform := "linux", format := "jpg"
          timestamp := 0, metaCreated := 1, metaModified := 2
          metaPermissions := 3
          base64 := some "data:image/jpeg;base64,", base64Raw := some "" }
    ∧ (takeScreenshot wEnvOk "/d" (some "shot")
        { format := "jpeg", returnBase64 := true } 0 "linux").1 =
      .success
        { filename := "shot.jpg", filepath := "/d/shot.jpg", directory := "/d"
          sizeBytes := 10, tool := "grim", platform := "linux"
          format := "jpeg", timestamp := 0, metaCreated := 1
          metaModified := 2, metaPermissions := 3
          base64 := some "data:image/jpeg;base64,", base64Raw := some "" } := by
  decide

/-- Claim C10: the quality configuration value is never consulted when
building commands: two invocations differing only in quality build the same
validated context (hence the same candidate command list) and produce the
same outcome and invocation trace. -/
theorem quality_has_no_effect (env : Env) (destinationDir : String)
    (customName : Option String) (config : Config) (q : Nat) (now : Nat)
    (currentPlatform : String) :
    takeScreenshot env destinationDir customName
      { config with quality := q } now currentPlatform =
      takeScreenshot env destinationDir customName config now currentPlatform
    ∧ shotCtxOf destinationDir customName
      { config with quality := q } now currentPlatform =
      shotCtxOf destinationDir customName config now currentPlatform := by
  cases config
  exact ⟨rfl, rfl⟩

end Crosshot
